import Mathlib

/-!
Verification development for the Equalizer frontend session observers
(`NegotiationArena.tsx`, `LiveEscalation.tsx`) as a shallow embedding.
The negotiation observer keeps a card list and a leverage score, updated by
`counter_card` frames arriving over a duplex WebSocket; the escalation
observer keeps a step list updated by lifecycle events arriving over a
server-sent event stream.
-/

/-! ## Negotiation arena data model (`NegotiationArena.tsx`) -/

/-- The `interface CounterCard` of `NegotiationArena.tsx`. -/
structure CounterCard where
  card_id : String
  timestamp : String
  their_statement : String
  verdict : String
  verdict_emoji : String
  explanation : String
  counter_argument : String
  evidence : List String
  confidence : Int
  suggested_questions : List String
deriving DecidableEq, Inhabited

/-- The `readyState` constants of a browser WebSocket. -/
inductive WsReadyState where
  | CONNECTING
  | OPEN
  | CLOSING
  | CLOSED
deriving DecidableEq, Inhabited

/-- The observable React state of `NegotiationArena` used by the
WebSocket and speech handlers. `ws` models `wsRef.current` together with
its `readyState` (`none` when `wsRef.current` is null). -/
structure ArenaState where
  counterCards : List CounterCard
  negotiationScore : Int
  isAnalyzing : Bool
  currentTranscript : String
  manualInput : String
  ws : Option WsReadyState
deriving DecidableEq, Inhabited

/-- The `useState` initial values of `NegotiationArena`
(`counterCards = []`, `negotiationScore = 50`, ...). -/
def arenaInit : ArenaState :=
  { counterCards := []
    negotiationScore := 50
    isAnalyzing := false
    currentTranscript := ""
    manualInput := ""
    ws := none }

/-- Classification of one incoming WebSocket frame by the outcome of
`JSON.parse(event.data)`: `invalid` when the text is not valid JSON (the
parse raises a SyntaxError), `valid t card score` when it parses to an
object whose `type`, `card` and `negotiation_score` fields are as given. -/
inductive WsFrame where
  | invalid
  | valid (type : String) (card : CounterCard) (score : Int)
deriving DecidableEq

/-- The `ws.onmessage` handler of `connectWebSocket` in `NegotiationArena.tsx`:
`JSON.parse` the frame (there is no try/catch around it, so a parse
failure is an escaping exception, modelled as `Except.error`); when the
parsed type is `counter_card`, prepend the card keeping the last 5,
install the broadcast score, and clear the analyzing flag; any other
parsed type is ignored. -/
def wsOnMessage (s : ArenaState) (f : WsFrame) : Except String ArenaState :=
  match f with
  | .invalid => .error "SyntaxError: JSON.parse"
  | .valid t card score =>
      if t = "counter_card" then
        .ok { s with
              counterCards := (card :: s.counterCards).take 5
              negotiationScore := score
              isAnalyzing := false }
      else
        .ok s

/-- One browser event-loop delivery of a frame: an uncaught exception in
`onmessage` leaves the React state as it was and does not close the
socket; delivery of later frames is unaffected. -/
def applyFrame (s : ArenaState) (f : WsFrame) : ArenaState :=
  match wsOnMessage s f with
  | .ok s' => s'
  | .error _ => s

/-- Delivery of a whole sequence of frames, in arrival order. -/
def processFrames (s : ArenaState) (fs : List WsFrame) : ArenaState :=
  fs.foldl applyFrame s

/-- A frame whose parsed `negotiation_score` field is within the
documented bounds whenever its type is `counter_card`. -/
def frameScoreBounded : WsFrame → Bool
  | .invalid => true
  | .valid t _ n => t ≠ "counter_card" || (0 ≤ n && n ≤ 100)

/-- A message sent by the client over the WebSocket. -/
structure OutMessage where
  type : String
  speaker : String
  text : String
deriving DecidableEq

/-- One entry of `event.results` in `recognition.onresult`: the
transcript text together with its `isFinal` flag. -/
structure SpeechResult where
  transcript : String
  isFinal : Bool
deriving DecidableEq

/-- The accumulation loop of `recognition.onresult`: split the results
into the concatenated interim transcript and the concatenated final
transcript. -/
def collectTranscripts (results : List SpeechResult) : String × String :=
  results.foldl
    (fun acc r =>
      if r.isFinal then (acc.1, acc.2 ++ r.transcript)
      else (acc.1 ++ r.transcript, acc.2))
    ("", "")

/-- The `recognition.onresult` handler in `NegotiationArena.tsx`: show the interim
transcript; when the final transcript is non-empty and the WebSocket is
open, send a `transcript` message with speaker `them` and clear the
shown transcript. Returns the new state and the message sent, if any. -/
def recognitionOnResult (s : ArenaState) (results : List SpeechResult) :
    ArenaState × Option OutMessage :=
  let interimTranscript := (collectTranscripts results).1
  let finalTranscript := (collectTranscripts results).2
  if finalTranscript ≠ "" ∧ s.ws = some WsReadyState.OPEN then
    ({ s with currentTranscript := "" },
     some { type := "transcript", speaker := "them", text := finalTranscript })
  else
    ({ s with currentTranscript := interimTranscript }, none)

/-- Model of `String.prototype.trim`: strip leading and trailing whitespace
(written by structural recursion on the character list so that it
evaluates). -/
def jsTrim (s : String) : String :=
  String.mk (((s.data.dropWhile Char.isWhitespace).reverse.dropWhile
    Char.isWhitespace).reverse)

/-- The `sendManualInput` handler in `NegotiationArena.tsx`: return early when the
trimmed input is empty, the WebSocket ref is null, or its state is not
`OPEN`; otherwise send a `transcript` message with speaker `them` and
the trimmed text, set the analyzing flag and clear the input. -/
def sendManualInput (s : ArenaState) : ArenaState × Option OutMessage :=
  if jsTrim s.manualInput = "" ∨ s.ws ≠ some WsReadyState.OPEN then
    (s, none)
  else
    ({ s with isAnalyzing := true, manualInput := "" },
     some { type := "transcript", speaker := "them", text := jsTrim s.manualInput })

/-! ## Escalation observer data model (`LiveEscalation.tsx`) -/

/-- The status union of `interface EscalationStep` in
`LiveEscalation.tsx`. -/
inductive StepStatus where
  | pending
  | in_progress
  | completed
  | failed
deriving DecidableEq, Inhabited

/-- The `result` object of an escalation step
(`EscalationStep.result` in `LiveEscalation.tsx`); every field is
optional in the source interface. -/
structure StepResultPayload where
  message : Option String := none
  demo_mode : Option Bool := none
  twitter_intent_url : Option String := none
  twitter_intent_urls : Option (List String) := none
  twitter_thread : Option (List String) := none
  thread_count : Option Int := none
  video_url : Option String := none
deriving DecidableEq, Inhabited

/-- The `result` field of a stream event: the source reads
`eventData.result?.result`, so the event-level object carries a nested
`result`. -/
structure EventResult where
  result : Option StepResultPayload := none
deriving DecidableEq, Inhabited

/-- The `interface EscalationStep` of `LiveEscalation.tsx`. -/
structure EscalationStep where
  id : String
  name : String
  description : String
  status : StepStatus
  result : Option StepResultPayload := none
deriving DecidableEq, Inhabited

/-- The `stage` union of `LiveEscalation`. -/
inductive Stage where
  | confirm
  | input
  | running
  | completed
deriving DecidableEq, Inhabited

/-- The observable React state of `LiveEscalation` used by
`startEscalation` and the SSE handler. `streamClosed` records that the
handler called `eventSource.close()`, after which the stream delivers no
further events. -/
structure EscState where
  stage : Stage
  patientName : String
  patientEmail : String
  patientPhone : String
  steps : List EscalationStep
  currentStepIndex : Int
  sessionId : Option String
  error : Option String
  twitterIntentUrl : Option String
  twitterThread : List String
  twitterThreadUrls : List String
  threadVideoUrl : Option String
  streamClosed : Bool
deriving DecidableEq, Inhabited

/-- The `useState` initial values of `LiveEscalation`
(`stage = confirm`, `steps = []`, `currentStepIndex = -1`, ...). -/
def escInit : EscState :=
  { stage := .confirm
    patientName := ""
    patientEmail := ""
    patientPhone := ""
    steps := []
    currentStepIndex := -1
    sessionId := none
    error := none
    twitterIntentUrl := none
    twitterThread := []
    twitterThreadUrls := []
    threadVideoUrl := none
    streamClosed := false }

/-- One event of the escalation stream, classified by its parsed
`type` and payload fields; `other` covers any type string outside the
documented four. -/
inductive SseEvent where
  | step_starting (step_index : Nat)
  | step_completed (step_index : Nat) (result : Option EventResult)
  | step_failed (step_index : Nat) (error : Option String)
  | session_completed
  | other (type : String)
deriving DecidableEq

/-- Model of `Array.prototype.map` with the element index, as used by
`prev.map((step, idx) => ...)`; `k` is the index of the head. -/
def mapWithIndex (f : Nat → α → α) : Nat → List α → List α
  | _, [] => []
  | k, x :: xs => f k x :: mapWithIndex f (k + 1) xs

/-- The guard of `startEscalation` in `LiveEscalation.tsx` up to the
network request: with an empty name or email, record the validation
error and return (the Boolean result is whether the start request is
sent); otherwise enter the running stage and clear the error. -/
def startEscalationGuard (s : EscState) : EscState × Bool :=
  if s.patientName = "" ∨ s.patientEmail = "" then
    ({ s with error := some "Please enter your name and email" }, false)
  else
    ({ s with stage := .running, error := none }, true)

/-- Processing of the `/api/live-escalation/start` response in
`startEscalation`: store the session id and install the returned step
list with every status forced to `pending`. -/
def processStartResponse (s : EscState) (sessionId : String)
    (respSteps : List EscalationStep) : EscState :=
  { s with
    sessionId := some sessionId
    steps := respSteps.map (fun st => { st with status := StepStatus.pending }) }

/-- The `eventSource.onmessage` handler of `startEscalation` in
`LiveEscalation.tsx`. The if/else chain handles `step_starting`,
`step_completed` and `session_completed`; a `step_failed` event, like
any unrecognized type, matches no branch and leaves the state
unchanged. -/
def handleSseMessage (s : EscState) (e : SseEvent) : EscState :=
  match e with
  | .step_starting i =>
      { s with
        currentStepIndex := (i : Int)
        steps := mapWithIndex
          (fun idx step =>
            if idx = i then { step with status := StepStatus.in_progress } else step)
          0 s.steps }
  | .step_completed i r =>
      let payload := r.bind (·.result)
      let s1 :=
        match payload.bind (·.twitter_intent_urls) with
        | some urls =>
            { s with
              twitterThreadUrls := urls
              twitterThread := (payload.bind (·.twitter_thread)).getD [] }
        | none => s
      let s2 :=
        match payload.bind (·.twitter_intent_url) with
        | some url => if url = "" then s1 else { s1 with twitterIntentUrl := some url }
        | none => s1
      let s3 :=
        match payload.bind (·.video_url) with
        | some url => if url = "" then s2 else { s2 with threadVideoUrl := some url }
        | none => s2
      { s3 with
        steps := mapWithIndex
          (fun idx step =>
            if idx = i then
              { step with status := StepStatus.completed, result := payload }
            else step)
          0 s.steps }
  | .step_failed _ _ => s
  | .session_completed =>
      { s with stage := .completed, streamClosed := true }
  | .other _ => s

/-- Delivery of one stream event to the observer: once the handler has
closed the event source, the stream dispatches nothing further. -/
def processEvent (s : EscState) (e : SseEvent) : EscState :=
  if s.streamClosed then s else handleSseMessage s e

/-- Delivery of a sequence of stream events, in arrival order. -/
def processEvents (s : EscState) (es : List SseEvent) : EscState :=
  es.foldl processEvent s

/-- The outcome of one escalation step at the driver: the action
executor either returns a payload or fails. -/
inductive StepOutcome where
  | success (result : Option EventResult)
  | failure (error : Option String)
deriving DecidableEq

/-- Modelled from the spec: the escalation driver loop (backend code
absent from the repository snapshot). For `i` in `0..len(steps)` it
emits `step_starting{index=i}`, invokes the action executor, then emits
`step_completed{index, result}` on success or `step_failed{index,
error}` on failure and continues to the next step; after the last step
it emits one `session_completed`. `i` is the index of the first
remaining step. -/
def driverTraceFrom (i : Nat) : List StepOutcome → List SseEvent
  | [] => [SseEvent.session_completed]
  | o :: rest =>
      SseEvent.step_starting i ::
      (match o with
       | .success r => SseEvent.step_completed i r
       | .failure e => SseEvent.step_failed i e) ::
      driverTraceFrom (i + 1) rest

/-- Modelled from the spec: the full event trace of one escalation
session whose per-step outcomes are as given. -/
def driverTrace (outcomes : List StepOutcome) : List SseEvent :=
  driverTraceFrom 0 outcomes

/-! ## Overcharge display arithmetic (`LiveEscalation.tsx`) -/

/-- The line `const overcharge = billedAmount - fairAmount` (numbers modelled as
rationals). -/
def overcharge (billedAmount fairAmount : ℚ) : ℚ :=
  billedAmount - fairAmount

/-- Model of `Number.prototype.toFixed(0)` on an exactly representable value:
the nearest integer, ties resolved to the larger candidate, which is
Mathlib round. -/
def toFixed0 (x : ℚ) : ℤ :=
  round x

/-- The line `const overchargePercent = ((overcharge / fairAmount) * 100).toFixed(0)`. -/
def overchargePercent (billedAmount fairAmount : ℚ) : ℤ :=
  toFixed0 (overcharge billedAmount fairAmount / fairAmount * 100)

/-! ## Helper lemmas -/

/-- A concrete counter card used for evaluating the handlers. -/
def demoCard : CounterCard :=
  { card_id := "card-1"
    timestamp := "10:15:02"
    their_statement := "Our rates are standard"
    verdict := "FALSE"
    verdict_emoji := "X"
    explanation := "CGHS lists a far lower rate."
    counter_argument := "The CGHS rate for this procedure is far lower."
    evidence := ["CGHS 2023 rate card"]
    confidence := 90
    suggested_questions := ["Which rate card are you using?"] }

lemma processFrames_append (s : ArenaState) (fs : List WsFrame) (f : WsFrame) :
    processFrames s (fs ++ [f]) = applyFrame (processFrames s fs) f := by
  simp [processFrames, List.foldl_append]

lemma applyFrame_counter_card (s : ArenaState) (c : CounterCard) (n : Int) :
    applyFrame s (WsFrame.valid "counter_card" c n) =
      { s with counterCards := (c :: s.counterCards).take 5
               negotiationScore := n
               isAnalyzing := false } := by
  simp [applyFrame, wsOnMessage]

lemma applyFrame_score_bounded (s : ArenaState) (f : WsFrame)
    (hf : frameScoreBounded f = true)
    (h0 : 0 ≤ s.negotiationScore) (h1 : s.negotiationScore ≤ 100) :
    0 ≤ (applyFrame s f).negotiationScore ∧ (applyFrame s f).negotiationScore ≤ 100 := by
  cases f with
  | invalid => exact ⟨h0, h1⟩
  | valid t c n =>
      by_cases ht : t = "counter_card"
      · subst ht
        have hb : 0 ≤ n ∧ n ≤ 100 := by simpa [frameScoreBounded] using hf
        rw [applyFrame_counter_card]
        exact hb
      · simp [applyFrame, wsOnMessage, ht, h0, h1]

lemma processFrames_score_bounded (fs : List WsFrame) (s : ArenaState)
    (h : ∀ f ∈ fs, frameScoreBounded f = true)
    (h0 : 0 ≤ s.negotiationScore) (h1 : s.negotiationScore ≤ 100) :
    0 ≤ (processFrames s fs).negotiationScore ∧
      (processFrames s fs).negotiationScore ≤ 100 := by
  induction fs generalizing s with
  | nil => exact ⟨h0, h1⟩
  | cons f rest ih =>
      have hstep := applyFrame_score_bounded s f (h f (List.mem_cons_self f rest)) h0 h1
      exact ih (applyFrame s f) (fun g hg => h g (List.mem_cons_of_mem f hg)) hstep.1 hstep.2

lemma applyFrame_cards_length (s : ArenaState) (f : WsFrame)
    (h : s.counterCards.length ≤ 5) : (applyFrame s f).counterCards.length ≤ 5 := by
  cases f with
  | invalid => exact h
  | valid t c n =>
      by_cases ht : t = "counter_card"
      · subst ht
        rw [applyFrame_counter_card]
        simp
      · simp [applyFrame, wsOnMessage, ht, h]

lemma processFrames_cards_length (fs : List WsFrame) (s : ArenaState)
    (h : s.counterCards.length ≤ 5) :
    (processFrames s fs).counterCards.length ≤ 5 := by
  induction fs generalizing s with
  | nil => exact h
  | cons f rest ih => exact ih (applyFrame s f) (applyFrame_cards_length s f h)

/-! ## Claims about the negotiation observer -/

/-- Claim C2, counterexample: the observer installs the broadcast
`negotiation_score` without clamping, so a `counter_card` frame carrying
150 drives the score to 150, outside [0,100]. -/
theorem score_bound_cex :
    (applyFrame arenaInit (WsFrame.valid "counter_card" demoCard 150)).negotiationScore
        = 150 ∧
    ¬ (applyFrame arenaInit
        (WsFrame.valid "counter_card" demoCard 150)).negotiationScore ≤ 100 := by
  rw [applyFrame_counter_card]
  exact ⟨rfl, by decide⟩

/-- Claim C2 (amended): the score starts at 50 and, provided every
`counter_card` broadcast carries a `negotiation_score` within [0,100],
it remains within [0,100] after any sequence of received frames; the
observer installs the broadcast value as-is, so the bound is inherited
from the frames, not enforced locally. -/
theorem score_bounded_of_bounded_broadcasts (fs : List WsFrame)
    (h : ∀ f ∈ fs, frameScoreBounded f = true) :
    arenaInit.negotiationScore = 50 ∧
    0 ≤ (processFrames arenaInit fs).negotiationScore ∧
    (processFrames arenaInit fs).negotiationScore ≤ 100 :=
  ⟨rfl, processFrames_score_bounded fs arenaInit h (by decide) (by decide)⟩

/-- Claim C2, witness: a single in-bounds broadcast keeps the score in
bounds. -/
theorem score_bounded_of_bounded_broadcasts_witness :
    arenaInit.negotiationScore = 50 ∧
    0 ≤ (processFrames arenaInit
          [WsFrame.valid "counter_card" demoCard 80]).negotiationScore ∧
    (processFrames arenaInit
          [WsFrame.valid "counter_card" demoCard 80]).negotiationScore ≤ 100 :=
  score_bounded_of_bounded_broadcasts [WsFrame.valid "counter_card" demoCard 80]
    (by intro f hf; simp only [List.mem_singleton] at hf; subst hf; decide)

/-- Claim C3, counterexample: a frame that is not valid JSON makes
`JSON.parse` raise inside `ws.onmessage`, and nothing catches it — the
exception escapes the handler. -/
theorem malformed_frame_cex :
    wsOnMessage arenaInit WsFrame.invalid = Except.error "SyntaxError: JSON.parse" ∧
    (wsOnMessage arenaInit WsFrame.invalid).isOk = false :=
  ⟨rfl, rfl⟩

/-- Claim C3 (amended): a frame that is valid JSON but whose type is not
`counter_card` is ignored — card list and score unchanged, no exception;
a frame that is not valid JSON leaves the state unchanged as well, but
the parse exception escapes the handler (the handler itself never closes
the connection, so the session is not torn down either way). -/
theorem unhandled_frame_ignored (s : ArenaState) (t : String) (c : CounterCard)
    (n : Int) (h : t ≠ "counter_card") :
    wsOnMessage s (WsFrame.valid t c n) = Except.ok s ∧
    applyFrame s WsFrame.invalid = s ∧
    wsOnMessage s WsFrame.invalid = Except.error "SyntaxError: JSON.parse" := by
  refine ⟨?_, rfl, rfl⟩
  simp [wsOnMessage, h]

/-- Claim C3, witness: a `ping`-typed frame is ignored at the initial
state. -/
theorem unhandled_frame_ignored_witness :
    wsOnMessage arenaInit (WsFrame.valid "ping" demoCard 0) = Except.ok arenaInit ∧
    applyFrame arenaInit WsFrame.invalid = arenaInit ∧
    wsOnMessage arenaInit WsFrame.invalid = Except.error "SyntaxError: JSON.parse" :=
  unhandled_frame_ignored arenaInit "ping" demoCard 0 (by decide)

/-- Claim C4: the observer retains at most the 5 most recent counter
cards, and after each `counter_card` broadcast the list contains the
card from that broadcast. -/
theorem counter_cards_keep_recent_five (fs : List WsFrame) (c : CounterCard)
    (n : Int) :
    (processFrames arenaInit fs).counterCards.length ≤ 5 ∧
    (processFrames arenaInit
        (fs ++ [WsFrame.valid "counter_card" c n])).counterCards.length ≤ 5 ∧
    c ∈ (processFrames arenaInit
        (fs ++ [WsFrame.valid "counter_card" c n])).counterCards := by
  refine ⟨processFrames_cards_length fs arenaInit (by decide), ?_, ?_⟩
  · rw [processFrames_append]
    exact applyFrame_cards_length _ _ (processFrames_cards_length fs arenaInit (by decide))
  · rw [processFrames_append, applyFrame_counter_card]
    simp [List.take_succ_cons]

/-! ## Helper lemmas for the escalation observer -/

lemma getElem?_mapWithIndex (f : Nat → α → α) :
    ∀ (k : Nat) (l : List α) (j : Nat),
      (mapWithIndex f k l)[j]? = (l[j]?).map (f (k + j)) := by
  intro k l
  induction l generalizing k with
  | nil => intro j; simp [mapWithIndex]
  | cons x xs ih =>
      intro j
      cases j with
      | zero => simp [mapWithIndex]
      | succ j =>
          rw [show k + (j + 1) = k + 1 + j by omega]
          simpa [mapWithIndex] using ih (k + 1) j

/-- A concrete escalation step used for evaluating the handlers. -/
def demoStep (i : String) (st : StepStatus) : EscalationStep :=
  { id := i
    name := "Email Billing Department"
    description := "Sending escalation email"
    status := st }

/-- A running escalation session whose first step is in progress,
as seen by the observer. -/
def escFailState : EscState :=
  { escInit with
    stage := .running
    steps := [demoStep "email_billing" .in_progress, demoStep "whatsapp_notify" .pending]
    currentStepIndex := 0
    sessionId := some "sess-42" }

lemma driverTraceFrom_decomp (os : List StepOutcome) :
    ∀ i : Nat, ∃ pre, driverTraceFrom i os = pre ++ [SseEvent.session_completed] ∧
      SseEvent.session_completed ∉ pre := by
  induction os with
  | nil => intro i; exact ⟨[], rfl, by simp⟩
  | cons o rest ih =>
      intro i
      obtain ⟨pre, hpre, hmem⟩ := ih (i + 1)
      refine ⟨SseEvent.step_starting i ::
        (match o with
         | .success r => SseEvent.step_completed i r
         | .failure e => SseEvent.step_failed i e) :: pre, ?_, ?_⟩
      · simp [driverTraceFrom, hpre]
      · cases o <;> simp_all

/-! ## Claims about the escalation observer -/

/-- Claim C1 (code bug): the `eventSource.onmessage` handler of
`startEscalation` has no `step_failed` branch, so a `step_failed` event
leaves the observer state untouched — the step stays `in_progress`
instead of becoming `failed` — while later events for subsequent steps
are still processed. -/
theorem step_failed_event_ignored :
    processEvent escFailState
        (SseEvent.step_failed 0 (some "SMTP connection refused")) = escFailState ∧
    (processEvent escFailState
        (SseEvent.step_failed 0 (some "SMTP connection refused"))).steps.map
        EscalationStep.status = [StepStatus.in_progress, StepStatus.pending] ∧
    (processEvent
        (processEvent escFailState (SseEvent.step_failed 0 (some "SMTP connection refused")))
        (SseEvent.step_starting 1)).currentStepIndex = 1 :=
  ⟨rfl, rfl, rfl⟩

/-- Claim C5: processing the `start` response installs the returned step
list with every status forced to `pending`, whatever statuses the
payload carried. -/
theorem start_response_steps_pending (s : EscState) (sid : String)
    (resp : List EscalationStep) (st : EscalationStep)
    (h : st ∈ (processStartResponse s sid resp).steps) :
    st.status = StepStatus.pending := by
  simp only [processStartResponse, List.mem_map] at h
  obtain ⟨a, -, rfl⟩ := h
  rfl

/-- Claim C5, witness: a response step arriving with status `completed`
is installed as `pending`. -/
theorem start_response_steps_pending_witness :
    (demoStep "email_billing" .pending).status = StepStatus.pending :=
  start_response_steps_pending escInit "sess-42"
    [demoStep "email_billing" .completed] (demoStep "email_billing" .pending)
    (by decide)

/-- Claim C6: processing `step_starting{index=i}` makes `i` the current
step index, sets the status of step `i` to `in_progress` keeping its
other fields (including `result`), and leaves every other step — and the
stage — unchanged. -/
theorem step_starting_frame_effect (s : EscState) (i : Nat) :
    (handleSseMessage s (SseEvent.step_starting i)).currentStepIndex = (i : Int) ∧
    (handleSseMessage s (SseEvent.step_starting i)).steps[i]? =
      (s.steps[i]?).map (fun st => { st with status := StepStatus.in_progress }) ∧
    (∀ j, j ≠ i → (handleSseMessage s (SseEvent.step_starting i)).steps[j]? = s.steps[j]?) ∧
    (handleSseMessage s (SseEvent.step_starting i)).stage = s.stage := by
  refine ⟨rfl, ?_, ?_, rfl⟩
  · rw [show (handleSseMessage s (SseEvent.step_starting i)).steps =
        mapWithIndex (fun idx step =>
          if idx = i then { step with status := StepStatus.in_progress } else step)
          0 s.steps from rfl]
    rw [getElem?_mapWithIndex]
    simp
  · intro j hj
    rw [show (handleSseMessage s (SseEvent.step_starting i)).steps =
        mapWithIndex (fun idx step =>
          if idx = i then { step with status := StepStatus.in_progress } else step)
          0 s.steps from rfl]
    rw [getElem?_mapWithIndex]
    simp only [Nat.zero_add, if_neg hj]
    cases s.steps[j]? <;> rfl

/-- Claim C6, witness: at a concrete two-step state, `step_starting 1`
marks step 1 in progress and leaves step 0 alone. -/
theorem step_starting_frame_effect_witness :
    (handleSseMessage escFailState (SseEvent.step_starting 1)).currentStepIndex = (1 : Int) ∧
    (handleSseMessage escFailState (SseEvent.step_starting 1)).steps[1]? =
      (escFailState.steps[1]?).map (fun st => { st with status := StepStatus.in_progress }) ∧
    (∀ j, j ≠ 1 →
      (handleSseMessage escFailState (SseEvent.step_starting 1)).steps[j]? =
        escFailState.steps[j]?) ∧
    (handleSseMessage escFailState (SseEvent.step_starting 1)).stage = escFailState.stage :=
  step_starting_frame_effect escFailState 1

/-- Claim C7: once `session_completed` is processed, the observer is in
the completed stage with the event source closed, and no subsequent
event changes anything; the driver (modelled from the spec, backend
absent from the snapshot) emits `session_completed` exactly once, after
all per-step events. -/
theorem session_completed_terminal_once (s : EscState)
    (h : s.streamClosed = false) (outcomes : List StepOutcome) :
    (processEvent s SseEvent.session_completed).stage = Stage.completed ∧
    (processEvent s SseEvent.session_completed).streamClosed = true ∧
    (∀ e, processEvent (processEvent s SseEvent.session_completed) e =
      processEvent s SseEvent.session_completed) ∧
    (∃ pre, driverTrace outcomes = pre ++ [SseEvent.session_completed] ∧
      SseEvent.session_completed ∉ pre) ∧
    (driverTrace outcomes).count SseEvent.session_completed = 1 := by
  have hs : processEvent s SseEvent.session_completed =
      { s with stage := .completed, streamClosed := true } := by
    simp [processEvent, h, handleSseMessage]
  obtain ⟨pre, hpre, hmem⟩ := driverTraceFrom_decomp outcomes 0
  refine ⟨by rw [hs], by rw [hs], ?_, ⟨pre, hpre, hmem⟩, ?_⟩
  · intro e
    rw [hs]
    simp [processEvent]
  · rw [show driverTrace outcomes = pre ++ [SseEvent.session_completed] from hpre,
      List.count_append]
    simp [List.count_eq_zero.mpr hmem]

/-- Claim C7, witness: at a concrete running state and an empty outcome
list. -/
theorem session_completed_terminal_once_witness :
    (processEvent escFailState SseEvent.session_completed).stage = Stage.completed ∧
    (processEvent escFailState SseEvent.session_completed).streamClosed = true ∧
    (∀ e, processEvent (processEvent escFailState SseEvent.session_completed) e =
      processEvent escFailState SseEvent.session_completed) ∧
    (∃ pre, driverTrace [] = pre ++ [SseEvent.session_completed] ∧
      SseEvent.session_completed ∉ pre) ∧
    (driverTrace []).count SseEvent.session_completed = 1 :=
  session_completed_terminal_once escFailState rfl []

/-- Claim C8: every utterance message sent by the negotiation client —
from `recognition.onresult` or from `sendManualInput` — has type
`transcript`, a speaker among them/host, non-empty text, and is sent
only with the WebSocket open. -/
theorem transcript_message_shape (s : ArenaState) (results : List SpeechResult)
    (m : OutMessage)
    (h : (recognitionOnResult s results).2 = some m ∨ (sendManualInput s).2 = some m) :
    m.type = "transcript" ∧ (m.speaker = "them" ∨ m.speaker = "host") ∧
    m.text ≠ "" ∧ s.ws = some WsReadyState.OPEN := by
  rcases h with h | h
  · rw [recognitionOnResult] at h
    by_cases hc : (collectTranscripts results).2 ≠ "" ∧ s.ws = some WsReadyState.OPEN
    · rw [if_pos hc] at h
      have hm : ({ type := "transcript", speaker := "them", text := (collectTranscripts results).2 } : OutMessage) = m := Option.some_inj.mp h
      subst hm
      exact ⟨rfl, Or.inl rfl, hc.1, hc.2⟩
    · rw [if_neg hc] at h
      exact absurd h (by simp)
  · rw [sendManualInput] at h
    by_cases hc : jsTrim s.manualInput = "" ∨ s.ws ≠ some WsReadyState.OPEN
    · rw [if_pos hc] at h
      exact absurd h (by simp)
    · rw [if_neg hc] at h
      push_neg at hc
      have hm : ({ type := "transcript", speaker := "them", text := jsTrim s.manualInput } : OutMessage) = m := Option.some_inj.mp h
      subst hm
      exact ⟨rfl, Or.inl rfl, hc.1, hc.2⟩

/-- The arena state with an open socket and a typed manual input. -/
def openArena : ArenaState :=
  { arenaInit with ws := some WsReadyState.OPEN, manualInput := "Our rates are standard" }

/-- The message `sendManualInput` emits from `openArena`. -/
def sentMsg : OutMessage :=
  { type := "transcript", speaker := "them", text := "Our rates are standard" }

/-- Claim C8, witness: the manual-input path at a concrete open-socket
state. -/
theorem transcript_message_shape_witness :
    sentMsg.type = "transcript" ∧
    (sentMsg.speaker = "them" ∨ sentMsg.speaker = "host") ∧
    sentMsg.text ≠ "" ∧ openArena.ws = some WsReadyState.OPEN :=
  transcript_message_shape openArena [] sentMsg (Or.inr rfl)

/-! ## Claims about the overcharge display arithmetic -/

/-- Claim C9: the displayed overcharge is the difference of the two
amounts, and for `fairAmount` nonzero the displayed percentage is the
rounded value of `100 * (billed - fair) / fair`. -/
theorem overcharge_percent_formula (billedAmount fairAmount : ℚ)
    (_hfair : fairAmount ≠ 0) :
    overcharge billedAmount fairAmount = billedAmount - fairAmount ∧
    overchargePercent billedAmount fairAmount =
      round (100 * (billedAmount - fairAmount) / fairAmount) := by
  refine ⟨rfl, ?_⟩
  rw [overchargePercent, toFixed0, overcharge, div_mul_eq_mul_div, mul_comm]

/-- Claim C9, witness: a 300 bill against a 100 fair rate shows a 200
overcharge and a 200 percent figure. -/
theorem overcharge_percent_formula_witness :
    overcharge 300 100 = 300 - 100 ∧
    overchargePercent 300 100 = round ((100 : ℚ) * (300 - 100) / 100) :=
  overcharge_percent_formula 300 100 (by norm_num)

/-- Claim C10: with the form in the input stage, an empty name or email
makes `startEscalation` record the validation error and return without
sending the start request or leaving the input stage; the running stage
is entered exactly when both are non-empty. -/
theorem start_escalation_validation (s : EscState) (hs : s.stage = Stage.input) :
    ((s.patientName = "" ∨ s.patientEmail = "") →
      (startEscalationGuard s).2 = false ∧
      (startEscalationGuard s).1.error = some "Please enter your name and email" ∧
      (startEscalationGuard s).1.stage = Stage.input) ∧
    ((startEscalationGuard s).1.stage = Stage.running ↔
      s.patientName ≠ "" ∧ s.patientEmail ≠ "") := by
  by_cases hc : s.patientName = "" ∨ s.patientEmail = ""
  · constructor
    · intro _
      simp [startEscalationGuard, hc, hs]
    · rw [startEscalationGuard, if_pos hc]
      constructor
      · intro hrun
        rw [hs] at hrun
        exact absurd hrun (by decide)
      · intro hne
        rcases hc with hc | hc
        · exact absurd hc hne.1
        · exact absurd hc hne.2
  · push_neg at hc
    constructor
    · intro habs
      rcases habs with habs | habs
      · exact absurd habs hc.1
      · exact absurd habs hc.2
    · rw [startEscalationGuard, if_neg (by push_neg; exact hc)]
      simpa using hc

/-- Claim C10, witness: the initial state moved to the input stage has
empty name and email, so the guard refuses and records the error. -/
theorem start_escalation_validation_witness :
    ((({ escInit with stage := Stage.input } : EscState).patientName = "" ∨
      ({ escInit with stage := Stage.input } : EscState).patientEmail = "") →
      (startEscalationGuard { escInit with stage := Stage.input }).2 = false ∧
      (startEscalationGuard { escInit with stage := Stage.input }).1.error =
        some "Please enter your name and email" ∧
      (startEscalationGuard { escInit with stage := Stage.input }).1.stage = Stage.input) ∧
    ((startEscalationGuard { escInit with stage := Stage.input }).1.stage = Stage.running ↔
      ({ escInit with stage := Stage.input } : EscState).patientName ≠ "" ∧
      ({ escInit with stage := Stage.input } : EscState).patientEmail ≠ "") :=
  start_escalation_validation { escInit with stage := Stage.input } rfl
